import Mathlib

/-!
Verification of the calendar grid-layout engine of numbers-calendar.

The definitions below are a shallow embedding of
`src/spreadsheet_calendar/_spreadsheet_calendar.py` (the latest,
multi-format variant; `src/numbers_calendar/_numbers_calendar.py` has the
same month/year arithmetic).  Python `datetime.date` semantics (validity
range 1..9999, ISO weekday, day addition) are embedded explicitly; the
holiday table is an oracle `PyDate → Bool` as in the spec.
-/

namespace NumbersCalendar

/-- Python `calendar.isleap(year)`. -/
def isleap (y : Nat) : Bool :=
  (y % 4 == 0 && y % 100 != 0) || y % 400 == 0

/-- Python `calendar.mdays`: days per month, index 0 unused. -/
def mdays : List Nat := [0, 31, 28, 31, 30, 31, 30, 31, 31, 30, 31, 30, 31]

/-- The `num_days` component of Python `calendar.monthrange(year, month)`:
`mdays[month] + (month == 2 and isleap(year))`. -/
def monthrangeDays (y m : Nat) : Nat :=
  mdays.getD m 0 + (if m == 2 && isleap y then 1 else 0)

/-- A Python `datetime.date` value (always in the validity range when
constructed through `mkDate`). -/
structure PyDate where
  year : Nat
  month : Nat
  day : Nat
deriving DecidableEq, Repr

/-- Python `datetime.date(y, m, d)`: yields a date when the arguments are in
range (`datetime.MINYEAR = 1`, `datetime.MAXYEAR = 9999`), otherwise the
constructor raises `ValueError` (modelled as `none`). -/
def mkDate (y m d : Nat) : Option PyDate :=
  if 1 ≤ y ∧ y ≤ 9999 ∧ 1 ≤ m ∧ m ≤ 12 ∧ 1 ≤ d ∧ d ≤ monthrangeDays y m then
    some ⟨y, m, d⟩
  else
    none

/-- Days in all years strictly before year `y` (proleptic Gregorian, as in
CPython `datetime._days_before_year`). -/
def daysBeforeYear (y : Nat) : Nat :=
  365 * (y - 1) + (y - 1) / 4 - (y - 1) / 100 + (y - 1) / 400

/-- Days in year `y` strictly before month `m` (CPython
`datetime._days_before_month`). -/
def daysBeforeMonth (y m : Nat) : Nat :=
  (List.range (m - 1)).foldl (fun acc k => acc + monthrangeDays y (k + 1)) 0

/-- Python `date.toordinal()`: day 1 is 0001-01-01. -/
def toordinal (d : PyDate) : Nat :=
  daysBeforeYear d.year + daysBeforeMonth d.year d.month + d.day

/-- Python `date.isoweekday()`: Monday = 1 … Sunday = 7. -/
def isoweekday (d : PyDate) : Nat :=
  (toordinal d - 1) % 7 + 1

/-- The calendar successor of a date; `none` past 9999-12-31 (where Python
date arithmetic raises `OverflowError`). -/
def nextDay (d : PyDate) : Option PyDate :=
  if d.day < monthrangeDays d.year d.month then
    some ⟨d.year, d.month, d.day + 1⟩
  else if d.month < 12 then
    some ⟨d.year, d.month + 1, 1⟩
  else if d.year < 9999 then
    some ⟨d.year + 1, 1, 1⟩
  else
    none

/-- Python `day_dt + relativedelta(days=n)` (for `n ≥ 0`): repeated calendar
successor, failing past the datetime range. -/
def addDays : PyDate → Nat → Option PyDate
  | d, 0 => some d
  | d, Nat.succ n =>
    match nextDay d with
    | none => none
    | some d2 => addDays d2 n

/-- Embeds the `Calendar` dataclass fields used by the layout engine.  The
holiday table (`holidays.get(day_dt) is not None`) is an oracle. -/
structure Calendar where
  start_month : Nat := 1
  weekends : List Nat := [6, 7]
  no_holiday_weekends : Bool := false
  holidays : PyDate → Bool

/-- A `set_cell_style`/`write` target: grid position and the style name. -/
structure CellStyle where
  row : Nat
  col : Nat
  style : String
deriving DecidableEq, Repr

/-- The month placed on grid row `row_num + 1`: source lines 273–279
(`month_num = self.start_month + row_num`, wrapped modulo 12 when above 12). -/
def rowMonth (start_month row_num : Nat) : Nat :=
  if start_month + row_num > 12 then (start_month + row_num) % 12
  else start_month + row_num

/-- The style chosen for an in-month date: source lines 286–295 of
`Calendar.set_days`. -/
def resolveStyle (cal : Calendar) (day_dt : PyDate) : String :=
  let is_weekend := cal.weekends.contains (isoweekday day_dt)
  let is_holiday := cal.holidays day_dt
  if is_holiday && is_weekend && cal.no_holiday_weekends then "Weekend"
  else if is_holiday then "Holiday"
  else if is_weekend then "Weekend"
  else "Month Day"

/-- One iteration of the cell loop of `Calendar.set_days` (source lines
272–295), with the per-row computation of `month_dt` and `num_days`
inlined: the styled cell at grid position `(row_num + 1, col_num + 3)`,
or the `ValueError`/`OverflowError` the Python date arithmetic raises. -/
def dayCell (cal : Calendar) (year row_num col_num : Nat) :
    Except String CellStyle :=
  let m := rowMonth cal.start_month row_num
  match mkDate year m 1 with
  | none => .error "ValueError"
  | some month_dt =>
    let num_days := monthrangeDays year m
    if col_num ≥ num_days then
      .ok ⟨row_num + 1, col_num + 3, "Empty Day"⟩
    else
      match addDays month_dt col_num with
      | none => .error "OverflowError"
      | some day_dt => .ok ⟨row_num + 1, col_num + 3, resolveStyle cal day_dt⟩

/-- `Calendar.set_days`: the full day-styling pass over grid rows 1–12 and
day columns 3–33, collecting every styled cell, or the first error the
Python code would raise. -/
def set_days (cal : Calendar) (year : Nat) : Except String (List CellStyle) :=
  (List.range 12).foldlM
    (fun acc r =>
      (List.range 31).foldlM
        (fun acc2 c => (dayCell cal year r c).map (fun cell => acc2 ++ [cell]))
        acc)
    []

/-- `Calendar.sheet_name` (source lines 297–307; the free function
`sheet_name(year, start_month)` of the numbers variant is identical):
note the source tests `start_month > 0`, not `> 1`. -/
def sheet_name (start_month year : Nat) : String :=
  if start_month > 0 then
    let year_1 := toString year
    let year_2 :=
      if year_1.length ≥ 4 then (toString (year + 1)).takeRight 2
      else toString (year + 1)
    year_1 ++ "-" ++ year_2
  else
    toString year

/-- One merged year-label span: the merge range rows, the row the label is
written at, and the label text. -/
structure YearSpan where
  rowStart : Nat
  rowEnd : Nat
  writeRow : Nat
  label : String
deriving DecidableEq, Repr

/-- The year-label merges and writes of `Calendar.set_months` (source lines
248–256): `merge_cells(1,0,offset,0)`, `write(1,0,year)`,
`merge_cells(offset+1,0,12,0)`, `write(offset+1,0,year+1)` with
`offset = 13 - start_month` when `start_month > 1`, else a single span. -/
def yearSpans (year start_month : Nat) : List YearSpan :=
  if start_month > 1 then
    let offset := 13 - start_month
    [⟨1, offset, 1, toString year⟩,
     ⟨offset + 1, 12, offset + 1, toString (year + 1)⟩]
  else
    [⟨1, 12, 1, toString year⟩]

/-- Python `calendar.month_name` (default C locale): index 0 is empty. -/
def month_name (m : Nat) : String :=
  ["", "January", "February", "March", "April", "May", "June", "July",
   "August", "September", "October", "November", "December"].getD m ""

/-- The month name written at grid row `i + 1`, column 1, by
`Calendar.set_months` (source lines 258–263). -/
def monthNameAt (start_month i : Nat) : String :=
  if start_month + i > 12 then month_name ((start_month + i) % 12)
  else month_name (start_month + i)

/-- Python `calendar.month_abbr` (default C locale): index 0 is empty. -/
def month_abbr (m : Nat) : String :=
  ["", "Jan", "Feb", "Mar", "Apr", "May", "Jun", "Jul", "Aug", "Sep",
   "Oct", "Nov", "Dec"].getD m ""

/-- Python `calendar.day_name` (default C locale), index 0 = Monday. -/
def day_name (d : Nat) : String :=
  ["Monday", "Tuesday", "Wednesday", "Thursday", "Friday", "Saturday",
   "Sunday"].getD d ""

/-- Python `calendar.day_abbr` (default C locale), index 0 = Mon. -/
def day_abbr (d : Nat) : String :=
  ["Mon", "Tue", "Wed", "Thu", "Fri", "Sat", "Sun"].getD d ""

/-- `MONTH_MAP` built by `generate_month_map`: both the full month name and
the abbreviation map to the month number 1–12. -/
def month_map (s : String) : Option Nat :=
  (List.range 12).findSome?
    (fun k =>
      if month_name (k + 1) = s || month_abbr (k + 1) = s then some (k + 1)
      else none)

/-- `WEEKDAY_MAP` built by `generate_weekday_map`: day name or abbreviation
to ISO weekday number (`day + 1`, so Monday = 1 … Sunday = 7). -/
def weekday_map (s : String) : Option Nat :=
  (List.range 7).findSome?
    (fun k => if day_name k = s || day_abbr k = s then some (k + 1) else none)

/-- Decimal value of a digit string. -/
def digitsToNat (l : List Char) : Nat :=
  l.foldl (fun acc ch => acc * 10 + (ch.toNat - 48)) 0

/-- Python `int(s)` on a decimal string: optional surrounding whitespace,
optional sign, then at least one digit (underscore grouping not
modelled). -/
def pyParseInt (s : String) : Option Int :=
  let t := ((s.data.dropWhile Char.isWhitespace).reverse.dropWhile
    Char.isWhitespace).reverse
  match t with
  | [] => none
  | c :: rest =>
    let ds := if c = '-' || c = '+' then rest else c :: rest
    if !ds.isEmpty && ds.all Char.isDigit then
      let n : Int := digitsToNat ds
      some (if c = '-' then -n else n)
    else
      none

/-- `valid_month` (source lines 41–47): the month number for a valid
name/abbreviation, else the `ArgumentTypeError` message. -/
def valid_month (month : String) : Except String Nat :=
  match month_map month with
  | some n => .ok n
  | none => .error (month ++ " is not a valid month abbreviation or name")

/-- `valid_weekday` (source lines 50–56). -/
def valid_weekday (weekday : String) : Except String Nat :=
  match weekday_map weekday with
  | some n => .ok n
  | none => .error (weekday ++ " is not a valid day abbreviation or name")

/-- `valid_year` (source lines 59–67): rejects strings that do not parse as
an int and negative values; any non-negative int is accepted. -/
def valid_year (year : String) : Except String Int :=
  match pyParseInt year with
  | some n => if n < 0 then .error (year ++ " is not a valid year") else .ok n
  | none => .error (year ++ " is not a valid year")

/-- `DEFAULT_WEEKENDS` (source line 35). -/
def DEFAULT_WEEKENDS : List Nat := [6, 7]

/-- The command-line arguments relevant to the layout engine, before
validation. `weekend = none` means the option was not given. -/
structure RawArgs where
  years : List String
  start_month : Option String
  weekend : Option (List String)
  no_holiday_weekends : Bool
deriving DecidableEq, Repr

/-- The validated argument values handed to the `Calendar` constructor. -/
structure Args where
  start_month : Nat
  weekends : List Nat
  no_holiday_weekends : Bool
  years : List Nat
deriving DecidableEq, Repr

/-- Argument validation as configured by `command_line_parser` (source
lines 84–149): `--start-month` through `valid_month` (argparse applies the
type converter to the string default `"Jan"` as well), each `--weekend`
value through `valid_weekday`, each positional year through `valid_year`.
The `--weekend` option is declared with `action="extend"` and the list
default `DEFAULT_WEEKENDS`; argparse then appends command-line values after
the default elements instead of replacing them. -/
def parseArgs (raw : RawArgs) : Except String Args := do
  let sm ← valid_month (raw.start_month.getD "Jan")
  let ws ←
    match raw.weekend with
    | none => pure DEFAULT_WEEKENDS
    | some ds => (ds.mapM valid_weekday).map (fun vs => DEFAULT_WEEKENDS ++ vs)
  let ys ← raw.years.mapM valid_year
  pure ⟨sm, ws, raw.no_holiday_weekends, ys.map Int.toNat⟩

/-- The generation driver of `main` (source lines 437–459): parse and
validate the arguments, then build one sheet (name plus styled day cells)
per requested year.  A validation error aborts before any sheet is
produced. -/
def runMain (raw : RawArgs) (hol : PyDate → Bool) :
    Except String (List (String × List CellStyle)) :=
  (parseArgs raw).bind fun a =>
    a.years.mapM fun y =>
      (set_days ⟨a.start_month, a.weekends, a.no_holiday_weekends, hol⟩ y).map
        (fun cells => (sheet_name a.start_month y, cells))

/-! ## Helper lemmas -/

lemma rowMonth_bounds (M r : Nat) (h1 : 1 ≤ M) (h2 : M ≤ 12) (hr : r < 12) :
    1 ≤ rowMonth M r ∧ rowMonth M r ≤ 12 := by
  unfold rowMonth
  split <;> omega

lemma monthrangeDays_ge (y m : Nat) (h1 : 1 ≤ m) (h2 : m ≤ 12) :
    28 ≤ monthrangeDays y m := by
  interval_cases m <;> simp [monthrangeDays, mdays]

lemma mkDate_first (y m : Nat) (hy1 : 1 ≤ y) (hy2 : y ≤ 9999)
    (hm1 : 1 ≤ m) (hm2 : m ≤ 12) :
    mkDate y m 1 = some ⟨y, m, 1⟩ := by
  have := monthrangeDays_ge y m hm1 hm2
  unfold mkDate
  rw [if_pos]
  exact ⟨hy1, hy2, hm1, hm2, Nat.le_refl 1, by omega⟩

lemma addDays_in_month (y m : Nat) (n : Nat) :
    ∀ d, 1 ≤ d → d + n ≤ monthrangeDays y m →
      addDays ⟨y, m, d⟩ n = some ⟨y, m, d + n⟩ := by
  induction n with
  | zero => intro d _ _; rfl
  | succ n ih =>
    intro d hd hle
    have hlt : d < monthrangeDays y m := by omega
    have hnext : nextDay ⟨y, m, d⟩ = some ⟨y, m, d + 1⟩ := by
      unfold nextDay
      rw [if_pos hlt]
    have hrec := ih (d + 1) (by omega) (by omega)
    have hgoal : d + 1 + n = d + (n + 1) := by omega
    simp only [addDays, hnext, hrec, hgoal]

lemma dayCell_in_month (cal : Calendar) (year r c : Nat)
    (hy1 : 1 ≤ year) (hy2 : year ≤ 9999)
    (hm1 : 1 ≤ cal.start_month) (hm2 : cal.start_month ≤ 12)
    (hr : r < 12)
    (hc : c < monthrangeDays year (rowMonth cal.start_month r)) :
    dayCell cal year r c =
      .ok ⟨r + 1, c + 3, resolveStyle cal ⟨year, rowMonth cal.start_month r, c + 1⟩⟩ := by
  have hm := rowMonth_bounds cal.start_month r hm1 hm2 hr
  have hmk := mkDate_first year (rowMonth cal.start_month r) hy1 hy2 hm.1 hm.2
  have hadd := addDays_in_month year (rowMonth cal.start_month r) c 1 (Nat.le_refl 1) (by omega)
  have hone : 1 + c = c + 1 := by omega
  rw [hone] at hadd
  simp only [dayCell, hmk, hadd, ge_iff_le, if_neg (by omega : ¬ monthrangeDays year (rowMonth cal.start_month r) ≤ c)]

lemma dayCell_out_of_month (cal : Calendar) (year r c : Nat)
    (hy1 : 1 ≤ year) (hy2 : year ≤ 9999)
    (hm1 : 1 ≤ cal.start_month) (hm2 : cal.start_month ≤ 12)
    (hr : r < 12)
    (hc : monthrangeDays year (rowMonth cal.start_month r) ≤ c) :
    dayCell cal year r c = .ok ⟨r + 1, c + 3, "Empty Day"⟩ := by
  have hm := rowMonth_bounds cal.start_month r hm1 hm2 hr
  have hmk := mkDate_first year (rowMonth cal.start_month r) hy1 hy2 hm.1 hm.2
  simp only [dayCell, hmk, ge_iff_le, if_pos hc]

lemma month_name_inj : ∀ a < 13, ∀ b < 13, month_name a = month_name b → a = b := by
  decide

/-- A fixed default calendar (January start, Saturday/Sunday weekends, no
holidays), used to evaluate the engine at concrete inputs. -/
def calPlain : Calendar := ⟨1, [6, 7], false, fun _ => false⟩

/-- A calendar starting in November whose holiday table marks every day of
the civil year 2024 as a holiday. -/
def calNovAll2024 : Calendar := ⟨11, [6, 7], false, fun d => decide (d.year = 2024)⟩

/-- A calendar starting in March with an empty holiday table. -/
def calMarch : Calendar := ⟨3, [6, 7], false, fun _ => false⟩

/-- A calendar with a single holiday on 2024-01-01 (a Monday). -/
def calNewYear : Calendar := ⟨1, [6, 7], false, fun d => decide (d = ⟨2024, 1, 1⟩)⟩

/-! ## Claim theorems -/

/-- Claim C1 (code bug): the spec requires the holiday/weekend lookup date of
a wrapped month row to carry the civil year `Y + 1`, but `Calendar.set_days`
builds `date(year, month_num % 12, 1)` with the nominal year.  At year 2023,
start month 11, row index 3 (January) and day column 2, every day of 2024 is
a holiday (`calNovAll2024`), yet the cell is styled `"Month Day"`: the
lookup was performed at 2023-01-02, not 2024-01-02. -/
theorem claim_C1_wrapped_lookup_uses_nominal_year :
    dayCell calNovAll2024 2023 2 1 = .ok ⟨3, 4, "Month Day"⟩
      ∧ calNovAll2024.holidays ⟨2024, 1, 2⟩ = true
      ∧ calNovAll2024.holidays ⟨2023, 1, 2⟩ = false := by
  refine ⟨rfl, rfl, rfl⟩

/-- Claim C2 (code bug): `sheet_name` tests `start_month > 0` (always true
for a valid month) instead of `> 1`, so the sheet for a plain January-start
year 2023 is named `"2023-24"`, not `"2023"` as the claim states. -/
theorem claim_C2_sheet_name_january_start :
    sheet_name 1 2023 = "2023-24" ∧ sheet_name 1 2023 ≠ "2023" := by
  refine ⟨rfl, by decide⟩

/-- Claim C3 (code bug): the day-count of a wrapped month row uses
`monthrange(year, ...)` with the nominal year.  For year 2023 and start
month 3, row offset 11 is a wrapped February whose effective year 2024 is
leap (29 days), yet day column 28 is styled `"Empty Day"`, because the code
computed 28 days from the non-leap nominal year 2023. -/
theorem claim_C3_wrapped_leap_day_count :
    dayCell calMarch 2023 11 28 = .ok ⟨12, 31, "Empty Day"⟩
      ∧ monthrangeDays 2024 2 = 29 ∧ monthrangeDays 2023 2 = 28 := by
  refine ⟨rfl, rfl, rfl⟩

/-- Claim C4 (confirmed): for every in-month date evaluated by the
day-styling pass, the style follows the exact precedence: holiday and
weekend with the collapse flag set gives `"Weekend"`; otherwise holiday
gives `"Holiday"`; otherwise ISO-weekday membership in the weekend set
gives `"Weekend"`; otherwise `"Month Day"`. -/
theorem claim_C4_day_style_precedence (cal : Calendar) (year r c : Nat)
    (hy1 : 1 ≤ year) (hy2 : year ≤ 9999)
    (hm1 : 1 ≤ cal.start_month) (hm2 : cal.start_month ≤ 12)
    (hr : r < 12)
    (hc : c < monthrangeDays year (rowMonth cal.start_month r)) :
    (cal.holidays ⟨year, rowMonth cal.start_month r, c + 1⟩ = true →
      cal.weekends.contains (isoweekday ⟨year, rowMonth cal.start_month r, c + 1⟩) = true →
      cal.no_holiday_weekends = true →
      dayCell cal year r c = .ok ⟨r + 1, c + 3, "Weekend"⟩)
  ∧ (cal.holidays ⟨year, rowMonth cal.start_month r, c + 1⟩ = true →
      (cal.weekends.contains (isoweekday ⟨year, rowMonth cal.start_month r, c + 1⟩) = false ∨
        cal.no_holiday_weekends = false) →
      dayCell cal year r c = .ok ⟨r + 1, c + 3, "Holiday"⟩)
  ∧ (cal.holidays ⟨year, rowMonth cal.start_month r, c + 1⟩ = false →
      cal.weekends.contains (isoweekday ⟨year, rowMonth cal.start_month r, c + 1⟩) = true →
      dayCell cal year r c = .ok ⟨r + 1, c + 3, "Weekend"⟩)
  ∧ (cal.holidays ⟨year, rowMonth cal.start_month r, c + 1⟩ = false →
      cal.weekends.contains (isoweekday ⟨year, rowMonth cal.start_month r, c + 1⟩) = false →
      dayCell cal year r c = .ok ⟨r + 1, c + 3, "Month Day"⟩) := by
  have heq := dayCell_in_month cal year r c hy1 hy2 hm1 hm2 hr hc
  refine ⟨?_, ?_, ?_, ?_⟩
  · intro hhol hwkd hflag
    have hw := hwkd
    simp at hw
    rw [heq]
    simp [resolveStyle, hhol, hflag, hw]
  · intro hhol hcase
    rw [heq]
    rcases hcase with hwkd | hflag
    · have hw := hwkd
      simp at hw
      simp [resolveStyle, hhol, hw]
    · simp [resolveStyle, hhol, hflag]
  · intro hhol hwkd
    have hw := hwkd
    simp at hw
    rw [heq]
    simp [resolveStyle, hhol, hw]
  · intro hhol hwkd
    have hw := hwkd
    simp at hw
    rw [heq]
    simp [resolveStyle, hhol, hw]

/-- Witness for claim C4: on `calNewYear` (sole holiday 2024-01-01, a
Monday), the cell for January 1 2024 is styled `"Holiday"`. -/
theorem claim_C4_witness :
    dayCell calNewYear 2024 0 0 = .ok ⟨0 + 1, 0 + 3, "Holiday"⟩ :=
  (claim_C4_day_style_precedence calNewYear 2024 0 0 (by decide) (by decide)
      (by decide) (by decide) (by decide) (by decide)).2.1 (by decide)
    (Or.inl (by decide))

/-- Claim C5 (confirmed): the year-label layout of `Calendar.set_months`.
For start month 1 there is one merged span over rows 1–12 labelled with the
year; for start month above 1 there are exactly two spans, rows
`1..(13 − M)` labelled `year` written at row 1 and rows `(14 − M)..12`
labelled `year + 1` written at row `14 − M`; every grid row 1–12 lies in
exactly one span. -/
theorem claim_C5_year_label_spans (year M : Nat) (h1 : 1 ≤ M) (h2 : M ≤ 12) :
    (M = 1 → yearSpans year M = [⟨1, 12, 1, toString year⟩])
  ∧ (1 < M → yearSpans year M =
      [⟨1, 13 - M, 1, toString year⟩, ⟨14 - M, 12, 14 - M, toString (year + 1)⟩])
  ∧ ∀ row, 1 ≤ row → row ≤ 12 →
      (yearSpans year M).countP
        (fun s => decide (s.rowStart ≤ row ∧ row ≤ s.rowEnd)) = 1 := by
  refine ⟨?_, ?_, ?_⟩
  · intro hM
    subst hM
    simp [yearSpans]
  · intro hM
    have h14 : 13 - M + 1 = 14 - M := by omega
    simp only [yearSpans, if_pos hM, h14]
  · intro row hr1 hr2
    unfold yearSpans
    split
    · rename_i hM
      simp only [List.countP_cons, List.countP_nil, decide_eq_true_eq]
      split_ifs <;> omega
    · rename_i hM
      simp only [List.countP_cons, List.countP_nil, decide_eq_true_eq]
      split_ifs <;> omega

/-- Witness for claim C5: for year 2023 and start month 7, the spans are
rows 1–6 labelled "2023" and rows 7–12 labelled "2024". -/
theorem claim_C5_witness :
    yearSpans 2023 7 = [⟨1, 6, 1, "2023"⟩, ⟨7, 12, 7, "2024"⟩] :=
  (claim_C5_year_label_spans 2023 7 (by decide) (by decide)).2.1 (by decide)

/-- Claim C6 (confirmed): the month name written at grid row `i + 1` is the
locale name of month `((M − 1 + i) mod 12) + 1`, and the twelve rows carry
twelve distinct months (cyclic order starting at M). -/
theorem claim_C6_month_cycle (M : Nat) (h1 : 1 ≤ M) (h2 : M ≤ 12) :
    (∀ i, i < 12 → monthNameAt M i = month_name ((M - 1 + i) % 12 + 1))
  ∧ (∀ i j, i < 12 → j < 12 → monthNameAt M i = monthNameAt M j → i = j) := by
  have hidx : ∀ i, i < 12 → monthNameAt M i = month_name ((M - 1 + i) % 12 + 1) := by
    intro i hi
    unfold monthNameAt
    split
    · exact congrArg month_name (by omega)
    · exact congrArg month_name (by omega)
  refine ⟨hidx, ?_⟩
  intro i j hi hj heq
  rw [hidx i hi, hidx j hj] at heq
  have := month_name_inj ((M - 1 + i) % 12 + 1) (by omega) ((M - 1 + j) % 12 + 1) (by omega) heq
  omega

/-- Witness for claim C6: with start month 11, row index 3 (`i = 2`) is
January. -/
theorem claim_C6_witness :
    monthNameAt 11 2 = month_name ((11 - 1 + 2) % 12 + 1) :=
  (claim_C6_month_cycle 11 (by decide) (by decide)).1 2 (by decide)

/-- Counterexample to claim C7 as stated: `valid_year` accepts the year 0,
but there the day-styling pass raises `ValueError` inside `datetime.date`
and assigns no style at all, so not every year yields a styled grid. -/
theorem claim_C7_counterexample :
    valid_year "0" = .ok 0 ∧ set_days calPlain 0 = .error "ValueError" := by
  refine ⟨rfl, rfl⟩

/-- Claim C7 (corrected to years within the `datetime` range 1..9999): the
day-styling pass assigns to every day cell (grid rows 1–12, columns 3–33)
exactly one style, drawn from `"Month Day"`, `"Weekend"`, `"Holiday"`,
`"Empty Day"`. -/
theorem claim_C7_style_partition (cal : Calendar) (year r c : Nat)
    (hy1 : 1 ≤ year) (hy2 : year ≤ 9999)
    (hm1 : 1 ≤ cal.start_month) (hm2 : cal.start_month ≤ 12)
    (hr : r < 12) (hc : c < 31) :
    ∃ s, dayCell cal year r c = .ok ⟨r + 1, c + 3, s⟩
      ∧ (s = "Month Day" ∨ s = "Weekend" ∨ s = "Holiday" ∨ s = "Empty Day")
      ∧ ∀ cell, dayCell cal year r c = .ok cell → cell = ⟨r + 1, c + 3, s⟩ := by
  by_cases hcd : c < monthrangeDays year (rowMonth cal.start_month r)
  · have heq := dayCell_in_month cal year r c hy1 hy2 hm1 hm2 hr hcd
    refine ⟨resolveStyle cal ⟨year, rowMonth cal.start_month r, c + 1⟩, heq, ?_, ?_⟩
    · cases hhol : cal.holidays ⟨year, rowMonth cal.start_month r, c + 1⟩ <;>
        cases hwkd : cal.weekends.contains
          (isoweekday ⟨year, rowMonth cal.start_month r, c + 1⟩) <;>
        cases hflag : cal.no_holiday_weekends <;>
        simp at hwkd <;>
        simp [resolveStyle, hhol, hwkd, hflag]
    · intro cell hcell
      rw [heq] at hcell
      exact (Except.ok.inj hcell).symm
  · have heq := dayCell_out_of_month cal year r c hy1 hy2 hm1 hm2 hr (by omega)
    refine ⟨"Empty Day", heq, Or.inr (Or.inr (Or.inr rfl)), ?_⟩
    intro cell hcell
    rw [heq] at hcell
    exact (Except.ok.inj hcell).symm

/-- Witness for claim C7: the cell of January 1 2024 on the plain default
calendar receives exactly one of the four styles. -/
theorem claim_C7_witness :
    ∃ s, dayCell calPlain 2024 0 0 = .ok ⟨0 + 1, 0 + 3, s⟩
      ∧ (s = "Month Day" ∨ s = "Weekend" ∨ s = "Holiday" ∨ s = "Empty Day")
      ∧ ∀ cell, dayCell calPlain 2024 0 0 = .ok cell → cell = ⟨0 + 1, 0 + 3, s⟩ :=
  claim_C7_style_partition calPlain 2024 0 0 (by decide) (by decide) (by decide)
    (by decide) (by decide) (by decide)

/-- Claim C8 (code bug): `--weekend` is declared with `action="extend"` and
the non-empty list default `DEFAULT_WEEKENDS`, so argparse appends the given
days to the default instead of replacing it: passing only `Monday` yields
the effective weekend list `[6, 7, 1]`, not `[1]`. -/
theorem claim_C8_weekend_extend_keeps_default :
    (parseArgs ⟨["2024"], none, some ["Monday"], false⟩).map Args.weekends
        = .ok [6, 7, 1]
      ∧ valid_weekday "Monday" = .ok 1
      ∧ ([6, 7, 1] : List Nat) ≠ [1] := by
  refine ⟨rfl, rfl, by decide⟩

/-- Claim C9 (code bug): `valid_year` accepts every non-negative integer,
in particular 0, but the layout engine is not total there: `set_days`
raises `ValueError` when constructing `date(0, month, 1)`, contradicting
the spec's totality contract over the validated domain. -/
theorem claim_C9_engine_not_total_on_validated_domain :
    valid_year "0" = .ok 0
      ∧ set_days calPlain 0 = .error "ValueError"
      ∧ runMain ⟨["0"], none, none, false⟩ calPlain.holidays
          = .error "ValueError" := by
  refine ⟨rfl, rfl, rfl⟩

/-- Claim C10 (confirmed): argument validation rejects negative or
non-integer years and month/weekday names absent from the locale tables,
and a validation error aborts `main` before any sheet is generated. -/
theorem claim_C10_validation_rejects_before_generation :
    (∀ s n, pyParseInt s = some n → n < 0 →
      valid_year s = .error (s ++ " is not a valid year"))
  ∧ (∀ s, pyParseInt s = none →
      valid_year s = .error (s ++ " is not a valid year"))
  ∧ (∀ m, month_map m = none →
      valid_month m = .error (m ++ " is not a valid month abbreviation or name"))
  ∧ (∀ w, weekday_map w = none →
      valid_weekday w = .error (w ++ " is not a valid day abbreviation or name"))
  ∧ (∀ raw hol e, parseArgs raw = .error e → runMain raw hol = .error e) := by
  refine ⟨?_, ?_, ?_, ?_, ?_⟩
  · intro s n hp hn
    unfold valid_year
    rw [hp]
    simp only [if_pos hn]
  · intro s hp
    unfold valid_year
    rw [hp]
  · intro m hm
    unfold valid_month
    rw [hm]
  · intro w hw
    unfold valid_weekday
    rw [hw]
  · intro raw hol e hp
    unfold runMain
    rw [hp]
    rfl

/-- Witness for claim C10: a negative year, an invalid month name and an
invalid weekday name are each rejected, and running the tool with year
`-1` produces an error and no sheets. -/
theorem claim_C10_witness :
    valid_year "-1" = .error ("-1" ++ " is not a valid year")
  ∧ valid_month "Smarch" = .error ("Smarch" ++ " is not a valid month abbreviation or name")
  ∧ valid_weekday "Noneday" = .error ("Noneday" ++ " is not a valid day abbreviation or name")
  ∧ runMain ⟨["-1"], none, none, false⟩ calPlain.holidays
      = .error ("-1 is not a valid year") :=
  ⟨claim_C10_validation_rejects_before_generation.1 "-1" (-1) (by decide) (by decide),
   claim_C10_validation_rejects_before_generation.2.2.1 "Smarch" (by decide),
   claim_C10_validation_rejects_before_generation.2.2.2.1 "Noneday" (by decide),
   claim_C10_validation_rejects_before_generation.2.2.2.2
     ⟨["-1"], none, none, false⟩ calPlain.holidays "-1 is not a valid year" (by rfl)⟩

end NumbersCalendar
